import Mathlib

/-!
Verification of the correlation-and-completion bridge of the
chromeExtensionAsync repository (src/execute-async-function.js).

The JavaScript source is shallowly embedded: pure string templating becomes
Lean string functions, the message/event listeners become explicit state
machines driven by traces of incoming messages/events, and the async
pipeline `chrome.tabs.executeAsyncFunction` becomes a function of the
environment's behaviour (injection outcome and broadcast trace).
-/

namespace CEA

/-- JSON-serialisable JavaScript values, as far as the bridge carries them. -/
inductive JsValue where
  | nullV
  | boolV (b : Bool)
  | numV (n : Int)
  | strV (s : String)
  deriving Repr, DecidableEq

/-- Escape of quote and backslash characters, character by character. -/
def jsonEscapeChars : List Char → List Char
  | [] => []
  | c :: cs =>
    if c = '\\' then '\\' :: '\\' :: jsonEscapeChars cs
    else if c = '"' then '\\' :: '"' :: jsonEscapeChars cs
    else c :: jsonEscapeChars cs

/-- Escape of quote and backslash used when rendering a string as a JSON literal. -/
def jsonEscape (s : String) : String := String.mk (jsonEscapeChars s.data)

/-- Rendering of a value as a JSON literal; models `JSON.stringify(p)` on the
JSON-serialisable values above (execute-async-function.js line 19). -/
def jsonStringify : JsValue → String
  | .nullV => "null"
  | .boolV true => "true"
  | .boolV false => "false"
  | .numV n => toString n
  | .strV s => "\"" ++ jsonEscape s ++ "\""

/-- The argument list embedded into the payload:
`params.map(p => JSON.stringify(p)).join(',')` (line 19). -/
def argsLiteral (params : List JsValue) : String :=
  String.intercalate "," (params.map jsonStringify)

/-- Constant tail of the wrapper template: the `finally` block that always calls
`chrome.runtime.sendMessage(result)` and the closing of the IIFE (lines 31-35). -/
def finallyTail : String :=
  "finally \x7b\n        // Always call sendMessage, as without it this might loop forever\n        chrome.runtime.sendMessage(result);\n    \x7d\n\x7d)()"

/-- Head of the wrapper template up to the invocation of the action: the
async IIFE opening, the `result` object tagged with the correlation id
(line 17), and the `try` block up to the `await` (lines 16-19). -/
def wrapHead (id : String) : String :=
  "(async function () \x7b\n    const result = \x7b asyncFuncID: \x27" ++ id ++
    "\x27 \x7d;\n    try \x7b\n        result.content = await "

/-- Middle of the wrapper template between the invocation and the `finally`
block: the end of the `try` block and the `catch` block that copies the error
properties (lines 20-30). -/
def wrapCatchPart : String :=
  ";\n    \x7d\n    catch(x) \x7b\n        // Make an explicit copy of the Error properties\n        result.error = \x7b \n            message: x.message, \n            arguments: x.arguments, \n            type: x.type, \n            name: x.name, \n            stack: x.stack \n        \x7d;\n    \x7d\n    "

/-- The wrapper template of execute-async-function.js lines 15-35: wraps the
action source text in an async IIFE that invokes it on the JSON-rendered
params, records the awaited result (or an explicit copy of a thrown error)
and always sends it via the `finally` block. -/
def wrapAsyncSendMessage (id : String) (action : String) (params : List JsValue) : String :=
  wrapHead id ++
    ("(" ++ action ++ ")(" ++ argsLiteral params ++ ")") ++
    (wrapCatchPart ++ finallyTail)

/-- Details object for `chrome.tabs.executeScript`: the `code` and `file`
fields the source inspects, plus the remaining fields (frame, timing, ...)
which the source never touches, kept opaquely. -/
structure ExecDetails where
  code : Option String
  file : Option String
  rest : List (String × JsValue)
  deriving Repr, DecidableEq

/-- JavaScript truthiness of a possibly-absent string field: present and
non-empty (an absent field reads as `undefined`, an empty string is falsy). -/
def jsTruthy : Option String → Bool
  | some s => !s.isEmpty
  | none => false

/-- The action argument of `executeAsyncFunction`: a function (carried by its
source text, as template interpolation stringifies it), a string of code, or
an `executeScript` details object. -/
inductive Action where
  | fn (source : String)
  | str (code : String)
  | obj (details : ExecDetails)
  deriving Repr, DecidableEq

/-- Rendering of the details object by `JSON.stringify(action)` as used in the
invalid-shape error message (line 50). -/
def stringifyDetails (d : ExecDetails) : String :=
  let fields :=
    (match d.code with
      | some c => ["\"code\":" ++ jsonStringify (.strV c)]
      | none => []) ++
    (match d.file with
      | some f => ["\"file\":" ++ jsonStringify (.strV f)]
      | none => []) ++
    d.rest.map (fun p => "\"" ++ p.1 ++ "\":" ++ jsonStringify p.2)
  "\x7b" ++ String.intercalate "," fields ++ "\x7d"

/-- Direct translation of `setupDetails(action, id, params)`
(execute-async-function.js lines 12-53): wrap a function or string directly;
wrap the `code` field of a details object in place; throw on file-based
scripts; throw on any other shape. Thrown errors become `Except.error` of the
thrown message. -/
def setupDetails (action : Action) (id : String) (params : List JsValue) :
    Except String ExecDetails :=
  match action with
  | .fn source =>
      .ok { code := some (wrapAsyncSendMessage id source params), file := none, rest := [] }
  | .str code =>
      .ok { code := some (wrapAsyncSendMessage id code params), file := none, rest := [] }
  | .obj d =>
      if jsTruthy d.code then
        .ok { d with code := some (wrapAsyncSendMessage id (d.code.getD "") params) }
      else if jsTruthy d.file then
        .error ("Cannot execute " ++ d.file.getD "" ++
          ". File based execute scripts are not supported.")
      else
        .error ("Cannot execute " ++ stringifyDetails d ++
          ", it must be a function, string, or have a code property.")

/-- Actions accepted by `setupDetails` without throwing: functions, strings,
and details objects whose `code` field is truthy. -/
def acceptedAction : Action → Bool
  | .fn _ => true
  | .str _ => true
  | .obj d => jsTruthy d.code

/-- The source text of the unit of work that ends up interpolated into the
wrapper template (`action` itself, or `action.code` for a details object). -/
def actionSource : Action → String
  | .fn s => s
  | .str s => s
  | .obj d => d.code.getD ""

/-- Plain record of error properties, as copied field by field in the wrapper
template's catch block (lines 23-29); it carries no object identity. -/
structure JsErrorRecord where
  message : String
  arguments : Option JsValue
  type : Option JsValue
  name : String
  stack : String
  deriving Repr, DecidableEq

/-- A value thrown inside the remote context. `live` models the thrown
object's identity, which cannot cross the execution-context boundary and is
deliberately not copied by the wrapper. -/
structure ThrownValue where
  message : String
  arguments : Option JsValue
  type : Option JsValue
  name : String
  stack : String
  live : Nat
  deriving Repr, DecidableEq

/-- The explicit copy of the error properties made by the catch block
(lines 23-29): the five listed fields and nothing else. -/
def errorCopy (x : ThrownValue) : JsErrorRecord :=
  { message := x.message, arguments := x.arguments, type := x.type,
    name := x.name, stack := x.stack }

/-- A message object sent over `chrome.runtime.sendMessage` /
received by `chrome.runtime.onMessage`. `asyncFuncID` is `none` when the
object carries no such field (it then reads as `undefined`). -/
structure RuntimeMessage where
  asyncFuncID : Option String
  content : Option JsValue
  error : Option JsErrorRecord
  deriving Repr, DecidableEq

/-- How the injected unit of work finishes: resolving with a value (possibly
`undefined`, i.e. `none`) or throwing. -/
inductive ActionOutcome where
  | success (v : Option JsValue)
  | thrown (x : ThrownValue)
  deriving Repr, DecidableEq

/-- The `result` object that the wrapper template leaves behind when the unit
of work finishes with the given outcome: `asyncFuncID` is set up front
(line 17), the try block stores the resolved value in `content` (line 19),
and the catch block stores the explicit error copy in `error` (lines 21-30). -/
def wrapperResult (id : String) : ActionOutcome → RuntimeMessage
  | .success v => { asyncFuncID := some id, content := v, error := none }
  | .thrown x => { asyncFuncID := some id, content := none, error := some (errorCopy x) }

/-- The broadcast messages the wrapper template emits for a given outcome:
exactly the one `chrome.runtime.sendMessage(result)` of the finally block
(lines 31-34), which runs in every case. -/
def wrapperMessages (id : String) (o : ActionOutcome) : List RuntimeMessage :=
  [wrapperResult id o]

/-- A broadcast delivery as seen by a runtime message listener: either a falsy
`request` or a truthy message object. -/
inductive Request where
  | falsy
  | truthy (m : RuntimeMessage)
  deriving Repr, DecidableEq

/-- The filter of the listener (line 64): `request && request.asyncFuncID === id`. -/
def requestMatches (id : String) : Request → Bool
  | .falsy => false
  | .truthy m => m.asyncFuncID == some id

/-- Host-side actions the listener body performs, in order. -/
inductive ListenerAction where
  | removeListener
  | resolve (m : RuntimeMessage)
  deriving Repr, DecidableEq

/-- State of one `promisifyRuntimeMessage(id)` registration: whether the
listener is still registered on `chrome.runtime.onMessage`, and the message
the promise has been resolved with, if any. -/
structure ListenerState where
  registered : Bool
  settled : Option RuntimeMessage
  deriving Repr, DecidableEq

/-- State immediately after `promisifyRuntimeMessage` registers the listener
(line 75): registered, promise pending. -/
def initialListener : ListenerState := { registered := true, settled := none }

/-- One broadcast delivery against the listener of
`promisifyRuntimeMessage(id)` (lines 62-73): a registered listener that sees a
truthy request with the matching `asyncFuncID` first removes itself
(line 67) and then resolves the promise with the request (line 68); all other
deliveries leave everything unchanged. A deregistered listener is no longer
invoked by the channel. -/
def listenerStepActs (id : String) (s : ListenerState) (r : Request) :
    ListenerState × List ListenerAction :=
  if s.registered then
    match r with
    | .falsy => (s, [])
    | .truthy m =>
      if m.asyncFuncID == some id then
        ({ registered := false, settled := some m },
         [ListenerAction.removeListener, ListenerAction.resolve m])
      else (s, [])
  else (s, [])

/-- State component of `listenerStepActs`. -/
def listenerStep (id : String) (s : ListenerState) (r : Request) : ListenerState :=
  (listenerStepActs id s r).1

/-- Drive the listener through a finite trace of broadcast deliveries. -/
def runListener (id : String) : ListenerState → List Request → ListenerState
  | s, [] => s
  | s, r :: rs => runListener id (listenerStep id s r) rs

/-- Translation of the settlement step of `executeAsyncFunction`
(lines 103-109): destructure `{content, error}` from the received message;
if `error` is present throw the synthesized error embedding the remote
message and stack, otherwise return `content`. -/
def settleOutcome (m : RuntimeMessage) : Except String (Option JsValue) :=
  match m.error with
  | some e =>
      .error ("Error thrown in execution script: " ++ e.message ++ ".\nStack: " ++ e.stack)
  | none => .ok m.content

/-- How one call to `chrome.tabs.executeAsyncFunction` ends, given the
environment's behaviour. `pending` records that nothing in the code ever
settles the returned promise. -/
inductive InvocationResult where
  | setupFailure (message : String)
  | injectionFailure (message : String)
  | scriptError (message : String)
  | completed (content : Option JsValue)
  | pending
  deriving Repr, DecidableEq

/-- Outcome of one invocation together with the final registration state of
the listener it created (if it got as far as creating one). -/
structure PipelineOutcome where
  result : InvocationResult
  listenerRegistered : Bool
  deriving Repr, DecidableEq

/-- Translation of `chrome.tabs.executeAsyncFunction` (lines 88-110) as a
function of the environment: `id` is the generated correlation id, `injection`
the outcome of `await chrome.tabs.executeScript` (line 100), and `trace` the
broadcast deliveries observed afterwards. `setupDetails` runs first (line 94);
the listener is registered next (line 97, before injection); an injection
failure rejects the call with no cleanup of the listener; otherwise the call
awaits the listener and settles via `settleOutcome`. There is no timer
anywhere on this path. -/
def executeAsyncFunction (id : String) (action : Action) (params : List JsValue)
    (injection : Except String Unit) (trace : List Request) : PipelineOutcome :=
  match setupDetails action id params with
  | .error e => { result := .setupFailure e, listenerRegistered := false }
  | .ok _ =>
    match injection with
    | .error e => { result := .injectionFailure e, listenerRegistered := true }
    | .ok _ =>
      let final := runListener id initialListener trace
      match final.settled with
      | none => { result := .pending, listenerRegistered := final.registered }
      | some m =>
        match settleOutcome m with
        | .error s => { result := .scriptError s, listenerRegistered := final.registered }
        | .ok v => { result := .completed v, listenerRegistered := final.registered }

/-- The `changeInfo` argument of a `chrome.tabs.onUpdated` event: its `status`
field (absent for updates that carry no status) and the remaining fields,
which the source never inspects. -/
structure ChangeInfo where
  status : Option String
  rest : List (String × JsValue)
  deriving Repr, DecidableEq

/-- Host tab lifecycle events: progression (`chrome.tabs.onUpdated`),
destruction (`chrome.tabs.onRemoved`) and supersession
(`chrome.tabs.onReplaced`, naming the replacing and the replaced tab). -/
inductive TabEvent where
  | updated (tabId : Nat) (changeInfo : ChangeInfo) (tab : JsValue)
  | removed (tabId : Nat)
  | replaced (addedTabId : Nat) (removedTabId : Nat)
  deriving Repr, DecidableEq

/-- The value `promisifyChromeEvent` resolves with on the terminal update
(lines 185-189): the event's own parameters. -/
structure UpdatedResult where
  tabId : Nat
  changeInfo : ChangeInfo
  tab : JsValue
  deriving Repr, DecidableEq

/-- State of one `promisifyChromeEvent(chrome.tabs.onUpdated, id)` wait. -/
structure WaitState where
  registered : Bool
  settled : Option UpdatedResult
  deriving Repr, DecidableEq

/-- State just after the wait registers its listener (line 204). -/
def initialWait : WaitState := { registered := true, settled := none }

/-- One host event against the listener that
`promisifyChromeEvent(chrome.tabs.onUpdated, id)` registered (lines 174-204):
the listener is registered on `chrome.tabs.onUpdated` only, so destruction
and supersession events never invoke it; an update settles the wait exactly
when `tabId === id && changeInfo.status === 'complete'` (line 182), removing
the listener (line 184) and resolving with the event's parameters
(lines 185-189); every other update is ignored. -/
def onUpdatedStep (id : Nat) (s : WaitState) : TabEvent → WaitState
  | .updated tabId changeInfo tab =>
    if s.registered then
      if tabId = id ∧ changeInfo.status = some "complete" then
        { registered := false, settled := some ⟨tabId, changeInfo, tab⟩ }
      else s
    else s
  | .removed _ => s
  | .replaced _ _ => s

/-- Drive the wait through a finite trace of host events. -/
def runWait (id : Nat) : WaitState → List TabEvent → WaitState
  | s, [] => s
  | s, e :: es => runWait id (onUpdatedStep id s e) es

/-- Whether an event is the terminal progression event for the awaited id. -/
def terminalFor (id : Nat) : TabEvent → Bool
  | .updated tabId ci _ => tabId == id && ci.status == some "complete"
  | .removed _ => false
  | .replaced _ _ => false

/-- How a lifecycle wait ends given the environment's behaviour. `pending`
records that nothing in the code ever settles the returned promise. -/
inductive LifecycleOutcome where
  | primitiveFailure (message : String)
  | completed (r : UpdatedResult)
  | pending
  deriving Repr, DecidableEq

/-- Translation of `chrome.tabs.createAndWait` (lines 241-248): await
`chrome.tabs.create` (whose failure propagates), then await
`promisifyChromeEvent(chrome.tabs.onUpdated, tab.id)` over the host event
trace. No other listener and no timer exist on this path. -/
def createAndWait (created : Except String Nat) (trace : List TabEvent) : LifecycleOutcome :=
  match created with
  | .error e => .primitiveFailure e
  | .ok tabId =>
    match (runWait tabId initialWait trace).settled with
    | some r => .completed r
    | none => .pending

/-- Translation of `chrome.tabs.reloadAndWait` (lines 250-255): await
`chrome.tabs.reload` (whose failure propagates), then the same wait on the
caller-supplied tab id. -/
def reloadAndWait (tabId : Nat) (reloaded : Except String Unit)
    (trace : List TabEvent) : LifecycleOutcome :=
  match reloaded with
  | .error e => .primitiveFailure e
  | .ok _ =>
    match (runWait tabId initialWait trace).settled with
    | some r => .completed r
    | none => .pending

/-- Lower-case hexadecimal digit character, as produced by `toString(16)`. -/
def hexDigitChar (n : Nat) : Char :=
  if n < 10 then Char.ofNat (48 + n) else Char.ofNat (87 + n)

/-- Base-16 digit list of a natural number, most significant digit first;
models `n.toString(16)` (line 91). -/
def hexDigits (n : Nat) : List Char :=
  if _h : n < 16 then [hexDigitChar n]
  else hexDigits (n / 16) ++ [hexDigitChar (n % 16)]
decreasing_by exact Nat.div_lt_self (by omega) (by omega)

/-- The string `n.toString(16)`. -/
def toStringBase16 (n : Nat) : String := String.mk (hexDigits n)

/-- The generated correlation id: `n.toString(16).substring(1)`, i.e. the
base-16 rendering with its first character dropped (line 91). -/
def generateId (n : Nat) : String := String.mk ((hexDigits n).drop 1)

/-- The integer `Math.floor((1 + r) * 0x10000)` for a random draw `r`
(line 91), as a natural number. -/
def randomKey (r : ℚ) : Nat := (⌊(1 + r) * 65536⌋).toNat

/-- Whether a character is a lower-case hexadecimal digit. -/
def isHexChar (c : Char) : Bool :=
  (('0' ≤ c) && (c ≤ '9')) || (('a' ≤ c) && (c ≤ 'f'))

/-- A deregistered listener is never invoked again, so its state is frozen. -/
theorem listenerStep_not_registered (id : String) (s : ListenerState) (r : Request)
    (h : s.registered = false) : listenerStep id s r = s := by
  simp [listenerStep, listenerStepActs, h]

/-- A delivery that fails the filter leaves the listener state unchanged. -/
theorem listenerStep_no_match (id : String) (s : ListenerState) (r : Request)
    (h : requestMatches id r = false) : listenerStep id s r = s := by
  cases r with
  | falsy => cases hreg : s.registered <;> simp [listenerStep, listenerStepActs, hreg]
  | truthy m =>
    cases hreg : s.registered <;>
      simp [listenerStep, listenerStepActs, hreg, requestMatches] at h ⊢
    simp [h]

/-- A registered listener that sees a matching truthy request removes itself
and then resolves, in that order. -/
theorem listenerStep_match (id : String) (s : ListenerState) (m : RuntimeMessage)
    (hreg : s.registered = true) (hm : m.asyncFuncID = some id) :
    listenerStepActs id s (Request.truthy m) =
      ({ registered := false, settled := some m },
       [ListenerAction.removeListener, ListenerAction.resolve m]) := by
  simp [listenerStepActs, hreg, hm]

/-- Running a listener over a concatenated trace composes. -/
theorem runListener_append (id : String) (s : ListenerState) (xs ys : List Request) :
    runListener id s (xs ++ ys) = runListener id (runListener id s xs) ys := by
  induction xs generalizing s with
  | nil => rfl
  | cons r rs ih => simp [runListener, ih]

/-- A trace with no matching delivery leaves any listener state unchanged. -/
theorem runListener_no_match (id : String) (s : ListenerState) (trace : List Request)
    (h : ∀ r ∈ trace, requestMatches id r = false) : runListener id s trace = s := by
  induction trace generalizing s with
  | nil => rfl
  | cons r rs ih =>
    rw [runListener, listenerStep_no_match id s r (h r (by simp))]
    exact ih s fun x hx => h x (by simp [hx])

/-- A deregistered listener stays frozen over any further trace. -/
theorem runListener_frozen (id : String) (s : ListenerState) (trace : List Request)
    (h : s.registered = false) : runListener id s trace = s := by
  induction trace with
  | nil => rfl
  | cons r rs ih => rw [runListener, listenerStep_not_registered id s r h]; exact ih

/-- One step preserves the invariant that a settled listener is deregistered. -/
theorem listenerStep_inv (id : String) (s : ListenerState) (r : Request)
    (h : s.settled.isSome = true → s.registered = false) :
    (listenerStep id s r).settled.isSome = true → (listenerStep id s r).registered = false := by
  cases hreg : s.registered
  · rw [listenerStep_not_registered id s r hreg]; exact h
  · cases r with
    | falsy => simpa [listenerStep, listenerStepActs, hreg] using h
    | truthy m =>
      by_cases hm : m.asyncFuncID = some id
      · simp [listenerStep, listenerStepActs, hreg, hm]
      · simpa [listenerStep, listenerStepActs, hreg, hm] using h

/-- The settled-implies-deregistered invariant holds along any run. -/
theorem runListener_inv (id : String) (s : ListenerState) (trace : List Request)
    (h : s.settled.isSome = true → s.registered = false) :
    (runListener id s trace).settled.isSome = true →
      (runListener id s trace).registered = false := by
  induction trace generalizing s with
  | nil => exact h
  | cons r rs ih => exact ih (listenerStep id s r) (listenerStep_inv id s r h)

/-- Destruction and supersession events never invoke the onUpdated listener,
and a deregistered listener is frozen; update events that are not the
terminal one for the awaited id are ignored. -/
theorem onUpdatedStep_no_terminal (id : Nat) (s : WaitState) (e : TabEvent)
    (h : terminalFor id e = false) : onUpdatedStep id s e = s := by
  cases e with
  | updated tabId ci tab =>
    have hnc : ¬(tabId = id ∧ ci.status = some "complete") := by
      simp [terminalFor] at h
      rintro ⟨h1, h2⟩
      exact absurd h2 (by simpa using h h1)
    cases hreg : s.registered <;> simp [onUpdatedStep, hreg, hnc]
  | removed tabId => rfl
  | replaced a b => rfl

/-- A deregistered wait is never invoked again, so its state is frozen. -/
theorem onUpdatedStep_not_registered (id : Nat) (s : WaitState) (e : TabEvent)
    (h : s.registered = false) : onUpdatedStep id s e = s := by
  cases e <;> simp [onUpdatedStep, h]

/-- A registered wait settles on the terminal update, deregistering itself and
recording the event's parameters. -/
theorem onUpdatedStep_terminal (id : Nat) (s : WaitState) (ci : ChangeInfo) (tab : JsValue)
    (hreg : s.registered = true) (hst : ci.status = some "complete") :
    onUpdatedStep id s (TabEvent.updated id ci tab) =
      { registered := false, settled := some ⟨id, ci, tab⟩ } := by
  simp [onUpdatedStep, hreg, hst]

/-- Running a wait over a concatenated trace composes. -/
theorem runWait_append (id : Nat) (s : WaitState) (xs ys : List TabEvent) :
    runWait id s (xs ++ ys) = runWait id (runWait id s xs) ys := by
  induction xs generalizing s with
  | nil => rfl
  | cons e es ih => simp [runWait, ih]

/-- A trace with no terminal update for the id leaves any wait state unchanged. -/
theorem runWait_no_terminal (id : Nat) (s : WaitState) (trace : List TabEvent)
    (h : ∀ e ∈ trace, terminalFor id e = false) : runWait id s trace = s := by
  induction trace generalizing s with
  | nil => rfl
  | cons e es ih =>
    rw [runWait, onUpdatedStep_no_terminal id s e (h e (by simp))]
    exact ih s fun x hx => h x (by simp [hx])

/-- A deregistered wait stays frozen over any further trace. -/
theorem runWait_frozen (id : Nat) (s : WaitState) (trace : List TabEvent)
    (h : s.registered = false) : runWait id s trace = s := by
  induction trace with
  | nil => rfl
  | cons e es ih => rw [runWait, onUpdatedStep_not_registered id s e h]; exact ih

/-- Base case of the hex rendering. -/
theorem hexDigits_small (n : Nat) (h : n < 16) : hexDigits n = [hexDigitChar n] := by
  rw [hexDigits]; simp [h]

/-- Step case of the hex rendering. -/
theorem hexDigits_big (n : Nat) (h : 16 ≤ n) :
    hexDigits n = hexDigits (n / 16) ++ [hexDigitChar (n % 16)] := by
  rw [hexDigits]; simp [Nat.not_lt.mpr h]

/-- Numbers in the interval reached by the id generator render with exactly
five base-16 digits. -/
theorem hexDigits_length_five (n : Nat) (hlo : 65536 ≤ n) (hhi : n ≤ 131071) :
    (hexDigits n).length = 5 := by
  have e1 : hexDigits n = hexDigits (n / 16) ++ [hexDigitChar (n % 16)] :=
    hexDigits_big n (by omega)
  have e2 : hexDigits (n / 16) = hexDigits (n / 16 / 16) ++ [hexDigitChar (n / 16 % 16)] :=
    hexDigits_big _ (by omega)
  have e3 : hexDigits (n / 16 / 16) =
      hexDigits (n / 16 / 16 / 16) ++ [hexDigitChar (n / 16 / 16 % 16)] :=
    hexDigits_big _ (by omega)
  have e4 : hexDigits (n / 16 / 16 / 16) =
      hexDigits (n / 16 / 16 / 16 / 16) ++ [hexDigitChar (n / 16 / 16 / 16 % 16)] :=
    hexDigits_big _ (by omega)
  have e5 : hexDigits (n / 16 / 16 / 16 / 16) = [hexDigitChar (n / 16 / 16 / 16 / 16)] :=
    hexDigits_small _ (by omega)
  rw [e1, e2, e3, e4, e5]
  simp

/-- Every base-16 digit character is a lower-case hexadecimal character. -/
theorem hexDigitChar_hex : ∀ k < 16, isHexChar (hexDigitChar k) = true := by decide

/-- Every character of the hex rendering is a hexadecimal character. -/
theorem hexDigits_all_hex (n : Nat) : ∀ c ∈ hexDigits n, isHexChar c = true := by
  induction n using Nat.strong_induction_on with
  | _ n ih =>
    by_cases h : n < 16
    · rw [hexDigits_small n h]
      intro c hc
      simp at hc
      subst hc
      exact hexDigitChar_hex n h
    · rw [hexDigits_big n (by omega)]
      intro c hc
      rcases List.mem_append.mp hc with h1 | h2
      · exact ih (n / 16) (Nat.div_lt_self (by omega) (by omega)) c h1
      · simp at h2
        subst h2
        exact hexDigitChar_hex _ (Nat.mod_lt _ (by omega))

/-- The random key `Math.floor((1 + r) * 0x10000)` lies in
`[0x10000, 0x1ffff]` for every draw `r` in `[0, 1)`. -/
theorem randomKey_bounds (r : ℚ) (h0 : 0 ≤ r) (h1 : r < 1) :
    65536 ≤ randomKey r ∧ randomKey r ≤ 131071 := by
  have hlo : (65536 : ℤ) ≤ ⌊(1 + r) * 65536⌋ := by
    rw [Int.le_floor]; push_cast; nlinarith
  have hhi : ⌊(1 + r) * 65536⌋ < 131072 := by
    rw [Int.floor_lt]; push_cast; nlinarith
  unfold randomKey
  omega

/-- A non-empty string is not `isEmpty`. -/
theorem isEmpty_false_of_ne (s : String) (h : s ≠ "") : s.isEmpty = false := by
  cases hc : s.isEmpty
  · rfl
  · exact absurd ((String.isEmpty_iff s).mp hc) h

/-- One step preserves the invariant that a settled wait is deregistered. -/
theorem onUpdatedStep_inv (id : Nat) (s : WaitState) (e : TabEvent)
    (h : s.settled.isSome = true → s.registered = false) :
    (onUpdatedStep id s e).settled.isSome = true → (onUpdatedStep id s e).registered = false := by
  cases hreg : s.registered
  · rw [onUpdatedStep_not_registered id s e hreg]; exact h
  · cases e with
    | updated tabId ci tab =>
      by_cases hc : tabId = id ∧ ci.status = some "complete"
      · simp [onUpdatedStep, hreg, hc]
      · simpa [onUpdatedStep, hreg, hc] using h
    | removed tabId => exact h
    | replaced a b => exact h

/-- The settled-implies-deregistered invariant holds along any wait run. -/
theorem runWait_inv (id : Nat) (s : WaitState) (trace : List TabEvent)
    (h : s.settled.isSome = true → s.registered = false) :
    (runWait id s trace).settled.isSome = true → (runWait id s trace).registered = false := by
  induction trace generalizing s with
  | nil => exact h
  | cons e es ih => exact ih (onUpdatedStep id s e) (onUpdatedStep_inv id s e h)

/-- C10: every correlation id generated by `executeAsyncFunction` is a string
of exactly 4 hexadecimal characters: for every random draw `r` in `[0, 1)`,
`Math.floor((1 + r) * 0x10000)` lies in `[0x10000, 0x1ffff]`, so its base-16
rendering has exactly 5 digits, and dropping the first digit leaves exactly 4
hexadecimal characters. -/
theorem correlation_id_four_hex (r : ℚ) (h0 : 0 ≤ r) (h1 : r < 1) :
    65536 ≤ randomKey r ∧ randomKey r ≤ 131071 ∧
    (toStringBase16 (randomKey r)).length = 5 ∧
    (generateId (randomKey r)).length = 4 ∧
    ∀ c ∈ (generateId (randomKey r)).data, isHexChar c = true := by
  obtain ⟨hlo, hhi⟩ := randomKey_bounds r h0 h1
  have hlen := hexDigits_length_five (randomKey r) hlo hhi
  refine ⟨hlo, hhi, ?_, ?_, ?_⟩
  · simpa [toStringBase16, String.length] using hlen
  · simp [generateId, String.length, List.length_drop, hlen]
  · intro c hc
    exact hexDigits_all_hex (randomKey r) c
      (List.mem_of_mem_drop (show c ∈ (hexDigits (randomKey r)).drop 1 from hc))

/-- Witness for `correlation_id_four_hex` at the concrete draw 1/2. -/
theorem correlation_id_four_hex_instance :
    (0 : ℚ) ≤ 1/2 ∧ (1/2 : ℚ) < 1 ∧
    (65536 ≤ randomKey (1/2) ∧ randomKey (1/2) ≤ 131071 ∧
     (toStringBase16 (randomKey (1/2))).length = 5 ∧
     (generateId (randomKey (1/2))).length = 4 ∧
     ∀ c ∈ (generateId (randomKey (1/2))).data, isHexChar c = true) :=
  ⟨by norm_num, by norm_num, correlation_id_four_hex (1/2) (by norm_num) (by norm_num)⟩

/-- C5: for every envelope received for the awaited id, a present `error`
field makes the call reject with the synthesized error embedding the remote
message and stack text, and an absent `error` field makes it resolve with
exactly the envelope's `content`, including an absent/undefined content. -/
theorem settle_outcome_contract (m : RuntimeMessage) :
    (∀ e, m.error = some e →
      settleOutcome m = Except.error
        ("Error thrown in execution script: " ++ e.message ++ ".\nStack: " ++ e.stack) ∧
      (∃ pre post, "Error thrown in execution script: " ++ e.message ++ ".\nStack: " ++ e.stack
          = pre ++ e.message ++ post) ∧
      (∃ pre, "Error thrown in execution script: " ++ e.message ++ ".\nStack: " ++ e.stack
          = pre ++ e.stack)) ∧
    (m.error = none → settleOutcome m = Except.ok m.content) := by
  constructor
  · intro e he
    refine ⟨by simp [settleOutcome, he], ?_, ?_⟩
    · exact ⟨"Error thrown in execution script: ", ".\nStack: " ++ e.stack, by
        rw [String.append_assoc]⟩
    · exact ⟨"Error thrown in execution script: " ++ e.message ++ ".\nStack: ", rfl⟩
  · intro he
    simp [settleOutcome, he]

/-- Witness for `settle_outcome_contract` on a concrete failing envelope and a
concrete successful envelope with absent content. -/
theorem settle_outcome_contract_instance :
    settleOutcome { asyncFuncID := some "ab12", content := none,
                    error := some { message := "boom", arguments := none, type := none,
                                    name := "Error", stack := "line1" } } =
      Except.error ("Error thrown in execution script: " ++ "boom" ++ ".\nStack: " ++ "line1") ∧
    settleOutcome { asyncFuncID := some "ab12", content := none, error := none } =
      Except.ok none := by
  constructor
  · have h := (settle_outcome_contract
      { asyncFuncID := some "ab12", content := none,
        error := some { message := "boom", arguments := none, type := none,
                        name := "Error", stack := "line1" } }).1
    exact (h _ rfl).1
  · exact (settle_outcome_contract _).2 rfl

/-- C9: for an action given as a details object with a truthy `code` field,
`setupDetails` returns that object with only its `code` field replaced by the
wrapped payload built from the original code; `file` and all other fields are
left unchanged. -/
theorem object_details_preserved (d : ExecDetails) (c : String) (id : String)
    (params : List JsValue) (hc : d.code = some c) (hne : c ≠ "") :
    setupDetails (Action.obj d) id params =
      Except.ok { code := some (wrapAsyncSendMessage id c params),
                  file := d.file, rest := d.rest } := by
  have ht : jsTruthy (some c) = true := by
    simp [jsTruthy, isEmpty_false_of_ne c hne]
  simp [setupDetails, hc, ht]

/-- Witness for `object_details_preserved` on a details object carrying extra
injection options. -/
theorem object_details_preserved_instance :
    setupDetails (Action.obj { code := some "async () => 1", file := none,
                               rest := [("allFrames", JsValue.boolV true)] }) "ab12" [] =
      Except.ok { code := some (wrapAsyncSendMessage "ab12" "async () => 1" []),
                  file := none, rest := [("allFrames", JsValue.boolV true)] } :=
  object_details_preserved _ "async () => 1" "ab12" [] rfl (by decide)

/-- An accepted action always passes `setupDetails` without throwing. -/
theorem setup_ok_of_accepted (action : Action) (id : String) (params : List JsValue)
    (hacc : acceptedAction action = true) :
    ∃ det, setupDetails action id params = Except.ok det := by
  cases action with
  | fn s => exact ⟨_, rfl⟩
  | str s => exact ⟨_, rfl⟩
  | obj d =>
    refine ⟨{ d with code := some (wrapAsyncSendMessage id (d.code.getD "") params) }, ?_⟩
    simp [setupDetails, show jsTruthy d.code = true from hacc]

/-- C3: the listener registered by `promisifyRuntimeMessage(id)` ignores falsy
requests and requests with a different `asyncFuncID` (staying registered and
pending), settles at most once and with the first matching message, removes
itself before resolving, and is never settled while still registered. -/
theorem correlation_listener_contract (id : String) :
    (∀ s r, requestMatches id r = false → listenerStep id s r = s) ∧
    (∀ trace, (∀ r ∈ trace, requestMatches id r = false) →
      runListener id initialListener trace = initialListener) ∧
    (∀ pre m post, (∀ r ∈ pre, requestMatches id r = false) → m.asyncFuncID = some id →
      runListener id initialListener (pre ++ Request.truthy m :: post) =
        { registered := false, settled := some m }) ∧
    (∀ s m, s.registered = true → m.asyncFuncID = some id →
      listenerStepActs id s (Request.truthy m) =
        ({ registered := false, settled := some m },
         [ListenerAction.removeListener, ListenerAction.resolve m])) ∧
    (∀ trace, (runListener id initialListener trace).settled.isSome = true →
      (runListener id initialListener trace).registered = false) := by
  refine ⟨fun s r h => listenerStep_no_match id s r h,
    fun trace h => runListener_no_match id _ trace h, ?_,
    fun s m hreg hm => listenerStep_match id s m hreg hm,
    fun trace => runListener_inv id initialListener trace (by simp [initialListener])⟩
  intro pre m post hpre hm
  have hstep : listenerStep id initialListener (Request.truthy m) =
      { registered := false, settled := some m } := by
    simp [listenerStep, listenerStep_match id initialListener m rfl hm]
  rw [runListener_append, runListener_no_match id _ pre hpre]
  show runListener id (listenerStep id initialListener (Request.truthy m)) post = _
  rw [hstep]
  exact runListener_frozen id _ post rfl

/-- Witness for `correlation_listener_contract`: a falsy request and a
mismatching message are ignored, the first matching message settles the
promise, and a later matching message is not consumed. -/
theorem correlation_listener_contract_instance :
    runListener "ab12" initialListener
      [Request.falsy,
       Request.truthy { asyncFuncID := some "ffff", content := none, error := none },
       Request.truthy { asyncFuncID := some "ab12", content := some (JsValue.numV 7),
                        error := none },
       Request.truthy { asyncFuncID := some "ab12", content := some (JsValue.numV 8),
                        error := none }] =
      { registered := false,
        settled := some { asyncFuncID := some "ab12", content := some (JsValue.numV 7),
                          error := none } } := by
  have h := (correlation_listener_contract "ab12").2.2.1
  exact h
    [Request.falsy,
     Request.truthy { asyncFuncID := some "ffff", content := none, error := none }]
    { asyncFuncID := some "ab12", content := some (JsValue.numV 7), error := none }
    [Request.truthy { asyncFuncID := some "ab12", content := some (JsValue.numV 8),
                      error := none }]
    (by decide) rfl

/-- C7: the onUpdated wait resolves only on a progression event whose tab id
equals the awaited id and whose status is the terminal value `complete`;
every other progression event, and every destruction or supersession event,
leaves the wait pending and registered; on the terminal event the listener is
removed and the wait resolves with the event's parameters. -/
theorem onUpdated_wait_contract (id : Nat) :
    (∀ s tabId ci tab, ¬(tabId = id ∧ ci.status = some "complete") →
      onUpdatedStep id s (TabEvent.updated tabId ci tab) = s) ∧
    (∀ s tabId, onUpdatedStep id s (TabEvent.removed tabId) = s) ∧
    (∀ s a b, onUpdatedStep id s (TabEvent.replaced a b) = s) ∧
    (∀ trace, (∀ e ∈ trace, terminalFor id e = false) →
      runWait id initialWait trace = initialWait) ∧
    (∀ pre ci tab post, (∀ e ∈ pre, terminalFor id e = false) →
      ci.status = some "complete" →
      runWait id initialWait (pre ++ TabEvent.updated id ci tab :: post) =
        { registered := false, settled := some ⟨id, ci, tab⟩ }) ∧
    (∀ trace, (runWait id initialWait trace).settled.isSome = true →
      (runWait id initialWait trace).registered = false) := by
  refine ⟨?_, fun s tabId => rfl, fun s a b => rfl,
    fun trace h => runWait_no_terminal id _ trace h, ?_,
    fun trace => runWait_inv id initialWait trace (by simp [initialWait])⟩
  · intro s tabId ci tab h
    cases hreg : s.registered <;> simp [onUpdatedStep, hreg, h]
  · intro pre ci tab post hpre hst
    have hstep : onUpdatedStep id initialWait (TabEvent.updated id ci tab) =
        { registered := false, settled := some ⟨id, ci, tab⟩ } :=
      onUpdatedStep_terminal id initialWait ci tab rfl hst
    rw [runWait_append, runWait_no_terminal id _ pre hpre]
    show runWait id (onUpdatedStep id initialWait (TabEvent.updated id ci tab)) post = _
    rw [hstep]
    exact runWait_frozen id _ post rfl

/-- Witness for `onUpdated_wait_contract`: a loading update, an update for
another tab, a removal and a supersession are all ignored; the terminal
update for the awaited tab settles the wait with the event's parameters. -/
theorem onUpdated_wait_contract_instance :
    runWait 7 initialWait
      [TabEvent.updated 7 { status := some "loading", rest := [] } JsValue.nullV,
       TabEvent.updated 9 { status := some "complete", rest := [] } JsValue.nullV,
       TabEvent.removed 9,
       TabEvent.replaced 10 9,
       TabEvent.updated 7 { status := some "complete", rest := [] } JsValue.nullV] =
      { registered := false,
        settled := some { tabId := 7, changeInfo := { status := some "complete", rest := [] },
                          tab := JsValue.nullV } } := by
  have h := (onUpdated_wait_contract 7).2.2.2.2.1
  exact h
    [TabEvent.updated 7 { status := some "loading", rest := [] } JsValue.nullV,
     TabEvent.updated 9 { status := some "complete", rest := [] } JsValue.nullV,
     TabEvent.removed 9,
     TabEvent.replaced 10 9]
    { status := some "complete", rest := [] } JsValue.nullV []
    (by decide) rfl

/-- C4 (code evaluation): a lifecycle wait started by `createAndWait` or
`reloadAndWait` stays pending over every event trace that carries no terminal
progression event for the awaited id — in particular over traces consisting
of destruction (`onRemoved`) or supersession (`onReplaced`) events for that
id. The code registers no destruction or supersession listener and no timer,
so nothing ever rejects the returned promise. -/
theorem lifecycle_wait_never_rejects (tabId : Nat) (trace : List TabEvent)
    (h : ∀ e ∈ trace, terminalFor tabId e = false) :
    createAndWait (Except.ok tabId) trace = LifecycleOutcome.pending ∧
    reloadAndWait tabId (Except.ok ()) trace = LifecycleOutcome.pending := by
  have hr : (runWait tabId initialWait trace).settled = none := by
    rw [runWait_no_terminal tabId initialWait trace h]; rfl
  exact ⟨by simp [createAndWait, hr], by simp [reloadAndWait, hr]⟩

/-- Witness for `lifecycle_wait_never_rejects`: the awaited tab is removed and
then superseded, and the wait still ends pending rather than rejected. -/
theorem lifecycle_wait_never_rejects_instance :
    createAndWait (Except.ok 7) [TabEvent.removed 7, TabEvent.replaced 8 7] =
      LifecycleOutcome.pending ∧
    reloadAndWait 7 (Except.ok ()) [TabEvent.removed 7, TabEvent.replaced 8 7] =
      LifecycleOutcome.pending :=
  lifecycle_wait_never_rejects 7 [TabEvent.removed 7, TabEvent.replaced 8 7] (by decide)

/-- C1 (code evaluation): when no broadcast with the matching correlation id
ever arrives, `executeAsyncFunction` leaves its promise pending forever: the
outcome is `pending` for every finite trace without a match, the listener is
still registered, and no timer exists anywhere in the translated code, so no
timeout-kind rejection can occur. -/
theorem executeAsync_no_timeout (id : String) (action : Action) (params : List JsValue)
    (trace : List Request) (hacc : acceptedAction action = true)
    (hnm : ∀ r ∈ trace, requestMatches id r = false) :
    executeAsyncFunction id action params (Except.ok ()) trace =
      { result := InvocationResult.pending, listenerRegistered := true } := by
  obtain ⟨det, hdet⟩ := setup_ok_of_accepted action id params hacc
  have hrun : runListener id initialListener trace = initialListener :=
    runListener_no_match id _ trace hnm
  have h1 : (runListener id initialListener trace).settled = none := by rw [hrun]; rfl
  have h2 : (runListener id initialListener trace).registered = true := by rw [hrun]; rfl
  simp [executeAsyncFunction, hdet, h1, h2]

/-- Witness for `executeAsync_no_timeout`: a call whose injected script never
reports back stays pending over unrelated broadcast traffic. -/
theorem executeAsync_no_timeout_instance :
    executeAsyncFunction "ab12" (Action.str "() => new Promise(() => 0)") []
        (Except.ok ())
        [Request.falsy,
         Request.truthy { asyncFuncID := some "ffff", content := none, error := none }] =
      { result := InvocationResult.pending, listenerRegistered := true } :=
  executeAsync_no_timeout "ab12" (Action.str "() => new Promise(() => 0)") []
    [Request.falsy,
     Request.truthy { asyncFuncID := some "ffff", content := none, error := none }]
    rfl (by decide)

/-- C2: for every accepted action, id and params, the payload produced by
`setupDetails` is the wrapper applied to the action's source, the wrapper
invokes the action on the params rendered as JSON literals, and the wrapper's
behaviour records the resolved value in `content`, or a plain five-field copy
of a thrown value in `error`, and in all cases sends exactly one message
tagged with the id as its final, unconditional action (the `finally` block
forming the constant tail of the payload). -/
theorem wrapper_payload_contract (action : Action) (id : String) (params : List JsValue)
    (hacc : acceptedAction action = true) :
    (∃ det, setupDetails action id params = Except.ok det ∧
      det.code = some (wrapAsyncSendMessage id (actionSource action) params)) ∧
    (∃ pre post, wrapAsyncSendMessage id (actionSource action) params =
      pre ++ ("(" ++ actionSource action ++ ")(" ++ argsLiteral params ++ ")") ++ post) ∧
    (∃ pre, wrapAsyncSendMessage id (actionSource action) params = pre ++ finallyTail) ∧
    (∀ v, wrapperMessages id (ActionOutcome.success v) =
      [{ asyncFuncID := some id, content := v, error := none }]) ∧
    (∀ x, wrapperMessages id (ActionOutcome.thrown x) =
      [{ asyncFuncID := some id, content := none,
         error := some { message := x.message, arguments := x.arguments, type := x.type,
                         name := x.name, stack := x.stack } }]) ∧
    (∀ o, (wrapperMessages id o).length = 1) := by
  refine ⟨?_, ?_, ?_, fun v => rfl, fun x => rfl, fun o => rfl⟩
  · cases action with
    | fn s => exact ⟨_, rfl, rfl⟩
    | str s => exact ⟨_, rfl, rfl⟩
    | obj d =>
      refine ⟨{ d with code := some (wrapAsyncSendMessage id (d.code.getD "") params) },
        ?_, rfl⟩
      simp [setupDetails, show jsTruthy d.code = true from hacc]
  · exact ⟨wrapHead id, wrapCatchPart ++ finallyTail, rfl⟩
  · refine ⟨(wrapHead id ++
      ("(" ++ actionSource action ++ ")(" ++ argsLiteral params ++ ")")) ++ wrapCatchPart, ?_⟩
    exact (String.append_assoc _ wrapCatchPart finallyTail).symm

/-- Witness for `wrapper_payload_contract` on a concrete string action. -/
theorem wrapper_payload_contract_instance :
    acceptedAction (Action.str "async (a) => a") = true ∧
    wrapperMessages "ab12" (ActionOutcome.success (some (JsValue.numV 2))) =
      [{ asyncFuncID := some "ab12", content := some (JsValue.numV 2), error := none }] :=
  ⟨rfl, (wrapper_payload_contract (Action.str "async (a) => a") "ab12"
    [JsValue.numV 1] rfl).2.2.2.1 _⟩

/-- C6 counterexample: the object `\x7bfile: ""\x7d` carries a `file` field
and no `code` field, yet `setupDetails` throws the generic invalid-shape
error ("must be a function, string, or have a code property"), not the
file-naming error ("File based execute scripts are not supported") that the
claim requires for every object carrying a `file` field, because the code
tests JavaScript truthiness of `action.file` and the empty string is falsy. -/
theorem file_empty_shape_error :
    setupDetails (Action.obj { code := none, file := some "", rest := [] }) "0000" [] =
      Except.error
        "Cannot execute \x7b\"file\":\"\"\x7d, it must be a function, string, or have a code property." ∧
    setupDetails (Action.obj { code := none, file := some "", rest := [] }) "0000" [] ≠
      Except.error
        ("Cannot execute " ++ "" ++ ". File based execute scripts are not supported.") := by
  have h1 : setupDetails (Action.obj { code := none, file := some "", rest := [] }) "0000" [] =
      Except.error
        "Cannot execute \x7b\"file\":\"\"\x7d, it must be a function, string, or have a code property." := by
    rfl
  refine ⟨h1, ?_⟩
  rw [h1]
  intro hc
  simp only [Except.error.injEq] at hc
  exact absurd hc (by decide)

/-- C6 amended: `setupDetails` accepts exactly functions, strings, and
objects with a truthy `code` field; an object with a truthy (non-empty)
`file` field and no truthy `code` field throws immediately the descriptive
error naming the file, before any injection is attempted; an object whose
`code` and `file` fields are both non-truthy (including a `file` field
holding the empty string) throws immediately the descriptive error stating
the input must be a function, string, or have a code property. -/
theorem setup_shape_errors (id : String) (params : List JsValue) :
    (∀ s, setupDetails (Action.fn s) id params =
      Except.ok { code := some (wrapAsyncSendMessage id s params),
                  file := none, rest := [] }) ∧
    (∀ s, setupDetails (Action.str s) id params =
      Except.ok { code := some (wrapAsyncSendMessage id s params),
                  file := none, rest := [] }) ∧
    (∀ d c, d.code = some c → c ≠ "" →
      setupDetails (Action.obj d) id params =
        Except.ok { code := some (wrapAsyncSendMessage id c params),
                    file := d.file, rest := d.rest }) ∧
    (∀ d f, d.file = some f → f ≠ "" → jsTruthy d.code = false →
      setupDetails (Action.obj d) id params =
        Except.error ("Cannot execute " ++ f ++
          ". File based execute scripts are not supported.") ∧
      ∀ injection trace,
        executeAsyncFunction id (Action.obj d) params injection trace =
          { result := InvocationResult.setupFailure ("Cannot execute " ++ f ++
              ". File based execute scripts are not supported."),
            listenerRegistered := false }) ∧
    (∀ d, jsTruthy d.code = false → jsTruthy d.file = false →
      setupDetails (Action.obj d) id params =
        Except.error ("Cannot execute " ++ stringifyDetails d ++
          ", it must be a function, string, or have a code property.")) := by
  refine ⟨fun s => rfl, fun s => rfl, ?_, ?_, ?_⟩
  · intro d c hc hne
    have ht : jsTruthy (some c) = true := by
      simp [jsTruthy, isEmpty_false_of_ne c hne]
    simp [setupDetails, hc, ht]
  · intro d f hf hne hcode
    have ht : jsTruthy (some f) = true := by
      simp [jsTruthy, isEmpty_false_of_ne f hne]
    have hsetup : setupDetails (Action.obj d) id params =
        Except.error ("Cannot execute " ++ f ++
          ". File based execute scripts are not supported.") := by
      simp [setupDetails, hcode, hf, ht]
    exact ⟨hsetup, fun injection trace => by simp [executeAsyncFunction, hsetup]⟩
  · intro d hcode hfile
    simp [setupDetails, hcode, hfile]

/-- Witness for `setup_shape_errors`: a file-based payload is rejected
synchronously with the error naming the file, independently of the injection
primitive and of any broadcast traffic. -/
theorem setup_shape_errors_instance :
    ({ code := none, file := some "page.js", rest := [] } : ExecDetails).file =
      some "page.js" ∧
    "page.js" ≠ "" ∧
    jsTruthy ({ code := none, file := some "page.js", rest := [] } : ExecDetails).code =
      false ∧
    setupDetails (Action.obj { code := none, file := some "page.js", rest := [] })
        "0000" [] =
      Except.error ("Cannot execute " ++ "page.js" ++
        ". File based execute scripts are not supported.") := by
  refine ⟨rfl, by decide, rfl, ?_⟩
  exact (((setup_shape_errors "0000" []).2.2.2.1)
    { code := none, file := some "page.js", rest := [] } "page.js" rfl (by decide) rfl).1

/-- C8 counterexample: when the injection primitive fails, the call fails
with that failure, but the listener registered before the injection is NOT
deregistered — it remains registered after the failed call, contradicting the
claim's cleanup conjunct. -/
theorem injection_failure_listener_leak :
    executeAsyncFunction "ab12" (Action.str "async () => 1") []
        (Except.error "Injection failed") [] =
      { result := InvocationResult.injectionFailure "Injection failed",
        listenerRegistered := true } ∧
    (executeAsyncFunction "ab12" (Action.str "async () => 1") []
        (Except.error "Injection failed") []).listenerRegistered ≠ false := by
  exact ⟨rfl, by decide⟩

/-- C8 amended: for every call in which the injection primitive fails after
the correlation listener was registered, the call fails immediately with that
injection failure, but the listener is not deregistered on that error exit
path: it remains registered after the failed call. -/
theorem injection_failure_contract (id : String) (action : Action) (params : List JsValue)
    (e : String) (trace : List Request) (hacc : acceptedAction action = true) :
    executeAsyncFunction id action params (Except.error e) trace =
      { result := InvocationResult.injectionFailure e, listenerRegistered := true } := by
  obtain ⟨det, hdet⟩ := setup_ok_of_accepted action id params hacc
  simp [executeAsyncFunction, hdet]

/-- Witness for `injection_failure_contract` on a concrete failed injection. -/
theorem injection_failure_contract_instance :
    acceptedAction (Action.str "async () => 1") = true ∧
    executeAsyncFunction "cdef" (Action.str "async () => 1") []
        (Except.error "No tab with id: 99.")
        [Request.truthy { asyncFuncID := some "cdef", content := none, error := none }] =
      { result := InvocationResult.injectionFailure "No tab with id: 99.",
        listenerRegistered := true } :=
  ⟨rfl, injection_failure_contract "cdef" (Action.str "async () => 1") []
    "No tab with id: 99."
    [Request.truthy { asyncFuncID := some "cdef", content := none, error := none }] rfl⟩

end CEA
